import Mathlib

/-!
Verification development for the 3D Overworld demo (`src/game.cpp`).

The source is a single C++ file.  All state-bearing arithmetic is `float`;
here it is embedded in exact arithmetic: `ℚ` for the math kernel, player
simulation and matrices, `ℝ` for the procedural sky generator (whose values
involve square roots of non-squares).

Modelling conventions, applied uniformly:

* `std::sqrt` is modelled by `sqrtQ`, an exact rational square root.  It is
  exact whenever its argument is the square of a rational; every concrete
  square-root extraction appearing in a concrete evaluation below is of a
  rational square (in fact of `1`), and the universally quantified theorems
  do not depend on the values of `sqrtQ`.
* `std::cos` / `std::sin` / `std::tan` have no exact rational counterpart.
  Functions that the source builds from trigonometric *values* (`rotateX`,
  `rotateY`, `rotateZ` compute `c = cos r`, `s = sin r` and then only use
  `c` and `s`) are embedded with the cosine and sine passed as arguments
  (`rotateXcs c s` etc.); the camera-front recomputation and `perspective`
  take the trigonometric function itself as an argument.  Theorems quantify
  over those arguments, hence over all rotation angles (and more).
* Matrices are the flat 16-element `float m[16]` arrays of the source, embedded
  as total functions `ℕ → ℚ` (indices ≥ 16 are never written and stay `0`).
  Array index `i` holds the entry in row `i % 4`, column `i / 4` of the
  column-major matrix that the GL side reads (`transpose = GL_FALSE`).
-/

/-- The `Vec3` of `src/game.cpp` (line 8), embedded over `ℚ`. -/
structure V3 where
  x : ℚ
  y : ℚ
  z : ℚ
deriving DecidableEq

/-- Source `clamp` (line 18). -/
def clamp (v minV maxV : ℚ) : ℚ :=
  if v < minV then minV else if v > maxV then maxV else v

/-- Source `add` (line 22). -/
def add (a b : V3) : V3 := ⟨a.x + b.x, a.y + b.y, a.z + b.z⟩

/-- Source `sub` (line 23). -/
def sub (a b : V3) : V3 := ⟨a.x - b.x, a.y - b.y, a.z - b.z⟩

/-- Source `mul` (line 24), scaling of a vector. -/
def mul (v : V3) (s : ℚ) : V3 := ⟨v.x * s, v.y * s, v.z * s⟩

/-- Source `dot` (line 25). -/
def dot (a b : V3) : ℚ := a.x * b.x + a.y * b.y + a.z * b.z

/-- Source `cross` (line 26). -/
def cross (a b : V3) : V3 :=
  ⟨a.y * b.z - a.z * b.y, a.z * b.x - a.x * b.z, a.x * b.y - a.y * b.x⟩

/-- Exact rational model of `std::sqrt`: exact on squares of rationals
(for reduced `p / q` with `p`, `q` perfect squares); every concrete
square root taken in this development is `sqrtQ 1 = 1`. -/
def sqrtQ (q : ℚ) : ℚ :=
  if q < 0 then 0 else (Nat.sqrt q.num.toNat : ℚ) / (Nat.sqrt q.den : ℚ)

/-- Source `normalize` (line 29): returns the zero vector when the length is at
most `1e-5`, otherwise divides by the length. -/
def normalizeVec (v : V3) : V3 :=
  let len := sqrtQ (dot v v)
  if len ≤ 1 / 100000 then ⟨0, 0, 0⟩ else ⟨v.x / len, v.y / len, v.z / len⟩

/-- The 16-float matrix array `Mat4` (line 14).  Index `i` holds the entry
in row `i % 4`, column `i / 4` of the column-major matrix uploaded to GL. -/
def Mat4 : Type := ℕ → ℚ

/-- Source `identity` (line 35): ones at indices 0, 5, 10, 15. -/
def identity : Mat4 := fun i =>
  if i = 0 then 1 else if i = 5 then 1 else if i = 10 then 1 else
  if i = 15 then 1 else 0

/-- Source `multiply` (line 41), with exactly the index arithmetic of the
source: the entry at array index `idx` (the C `col + row * 4` with `col = idx % 4`,
`row = idx / 4`) is the unrolled four-term sum of lines 46–49. -/
def multiply (a b : Mat4) : Mat4 := fun idx =>
  a (0 + idx / 4 * 4) * b (idx % 4 + 0 * 4) +
  a (1 + idx / 4 * 4) * b (idx % 4 + 1 * 4) +
  a (2 + idx / 4 * 4) * b (idx % 4 + 2 * 4) +
  a (3 + idx / 4 * 4) * b (idx % 4 + 3 * 4)

/-- Source `translate` (line 55): identity with the translation in indices 12–14
(column 3 of the column-major matrix). -/
def translateMat (t : V3) : Mat4 := fun i =>
  if i = 12 then t.x else if i = 13 then t.y else if i = 14 then t.z else
  identity i

/-- Source `scale` (line 63). -/
def scale (s : V3) : Mat4 := fun i =>
  if i = 0 then s.x else if i = 5 then s.y else if i = 10 then s.z else
  identity i

/-- Source `rotateX` (line 71) with `c = cos radians`, `s = sin radians` passed as
arguments: entries `m[5] = c`, `m[9] = -s`, `m[6] = s`, `m[10] = c` over the
identity. -/
def rotateXcs (c s : ℚ) : Mat4 := fun i =>
  if i = 5 then c else if i = 9 then -s else if i = 6 then s else
  if i = 10 then c else identity i

/-- Source `rotateY` (line 80) with `c = cos radians`, `s = sin radians` passed as
arguments: entries `m[0] = c`, `m[8] = s`, `m[2] = -s`, `m[10] = c`. -/
def rotateYcs (c s : ℚ) : Mat4 := fun i =>
  if i = 0 then c else if i = 8 then s else if i = 2 then -s else
  if i = 10 then c else identity i

/-- Source `rotateZ` (line 89) with `c = cos radians`, `s = sin radians` passed as
arguments: entries `m[0] = c`, `m[4] = -s`, `m[1] = s`, `m[5] = c`. -/
def rotateZcs (c s : ℚ) : Mat4 := fun i =>
  if i = 0 then c else if i = 4 then -s else if i = 1 then s else
  if i = 5 then c else identity i

/-- Source `perspective` (line 98).  The source computes `f = 1 / tan(fov / 2)`;
the tangent function is passed as the argument `tanF`.  Entries 3, 7, 15
are never assigned and stay `0` from the zero initialisation `Mat4 r{}`. -/
def perspective (tanF : ℚ → ℚ) (fovRadians aspect nearZ farZ : ℚ) : Mat4 :=
  fun i =>
    let f := 1 / tanF (fovRadians / 2)
    if i = 0 then f / aspect else if i = 5 then f else
    if i = 10 then (farZ + nearZ) / (nearZ - farZ) else
    if i = 11 then -1 else
    if i = 14 then 2 * farZ * nearZ / (nearZ - farZ) else 0

/-- Modelled from the spec: the convention of the spec is column-major
storage with pre-multiplication of column vectors, i.e. `matMulCM a b` is the true
mathematical product `A · B` of the column-major matrices: the entry in
row `r = idx % 4`, column `c = idx / 4` is `Σ k, A (r, k) * B (k, c)`,
with entry `(r, c)` stored at array index `r + c * 4`. -/
def matMulCM (a b : Mat4) : Mat4 := fun idx =>
  a (idx % 4 + 0 * 4) * b (0 + idx / 4 * 4) +
  a (idx % 4 + 1 * 4) * b (1 + idx / 4 * 4) +
  a (idx % 4 + 2 * 4) * b (2 + idx / 4 * 4) +
  a (idx % 4 + 3 * 4) * b (3 + idx / 4 * 4)

/-- Central fact about the `multiply` of the source: on column-major matrices it
computes the *reversed* product: `multiply a b` is `B · A`, not `A · B`. -/
theorem multiply_eq_matMulCM_swap (a b : Mat4) :
    multiply a b = matMulCM b a := by
  funext idx
  simp only [multiply, matMulCM]
  ring

/-- The ten cube centers (line 667, `cubePositions`). -/
def cubePositions : List V3 :=
  [⟨0, 0, 0⟩, ⟨2, 0, -3⟩, ⟨-2, 0, -4⟩, ⟨0, 3/2, -2⟩, ⟨7/2, 0, 3/2⟩,
   ⟨-7/2, 0, 2⟩, ⟨3/2, 0, 7/2⟩, ⟨-3/2, 0, 3⟩, ⟨4, 0, -5⟩, ⟨-4, 0, -11/2⟩]

theorem cubePositions_length : cubePositions.length = 10 := rfl

/-- The center of cube `i`. -/
def cubePos (i : Fin 10) : V3 :=
  cubePositions.get (Fin.cast cubePositions_length.symm i)

/-- The model matrix computed and uploaded for cube `i` (lines 805–806):
`multiply(translate(pos), multiply(rotateY(ry + 0.6 i), multiply(rotateX rx,
rotateZ rz)))`.  `cy, sy` are the cosine and sine of `ry + 0.6 * i`, and
`cx, sx, cz, sz` those of `rx` and `rz`. -/
def cubeModel (i : Fin 10) (cy sy cx sx cz sz : ℚ) : Mat4 :=
  multiply (translateMat (cubePos i))
    (multiply (rotateYcs cy sy) (multiply (rotateXcs cx sx) (rotateZcs cz sz)))

/-- Modelled from the spec: the matrix the spec asserts for cube `i`, the
column-major product `T(pos_i) · Ry(ry + 0.6 i) · Rx(rx) · Rz(rz)`. -/
def specCubeModel (i : Fin 10) (cy sy cx sx cz sz : ℚ) : Mat4 :=
  matMulCM (translateMat (cubePos i))
    (matMulCM (rotateYcs cy sy) (matMulCM (rotateXcs cx sx) (rotateZcs cz sz)))

/-- Player and motion constants (lines 180–184, 692–693): `gravity = -20`,
`jumpSpeed = 8`, `playerHeight = 1.6`, `groundLevel = -1`,
`cameraSpeed = 3`, `cameraRadius = 0.35`, `cubeRotationSpeed = 1.8`. -/
def gravity : ℚ := -20

def jumpSpeed : ℚ := 8

def playerHeight : ℚ := 8/5

def groundLevel : ℚ := -1

def cameraSpeed : ℚ := 3

def cameraRadius : ℚ := 7/20

def cubeRotationSpeed : ℚ := 9/5

/-- Source `cameraUp` (line 174). -/
def cameraUp : V3 := ⟨0, 1, 0⟩

/-- The approximation of π used by the source, `3.14159265f` (lines 209, 765). -/
def piApprox : ℚ := 314159265 / 100000000

/-- Source `sphereAabbCollision` (line 158): clamp the sphere center into the box,
then compare the squared distance against the squared radius with strict
`<` — touching exactly is not a collision. -/
def sphereAabbCollision (center : V3) (radius : ℚ) (lo hi : V3) : Bool :=
  let x := clamp center.x lo.x hi.x
  let y := clamp center.y lo.y hi.y
  let z := clamp center.z lo.z hi.z
  let closest : V3 := ⟨x, y, z⟩
  let diff := sub center closest
  decide (dot diff diff < radius * radius)

/-- The collision loop of lines 720–728: some obstacle AABB
(`center ± (0.6, 0.6, 0.6)`) overlaps the sphere of radius
`cameraRadius` at `nextPos`. -/
def collidesAny (nextPos : V3) (obstacles : List V3) : Bool :=
  obstacles.any fun pos =>
    sphereAabbCollision nextPos cameraRadius
      (sub pos ⟨3/5, 3/5, 3/5⟩) (add pos ⟨3/5, 3/5, 3/5⟩)

/-- Lines 729–731: keep the old position on any collision, otherwise move
to the candidate. -/
def attemptMove (pos nextPos : V3) (obstacles : List V3) : V3 :=
  if collidesAny nextPos obstacles then pos else nextPos

/-- Modelled from the spec (§4.4 step 3): squared distance from a candidate
point to the AABB `center ± (0.6, 0.6, 0.6)`, via the clamped point. -/
def distSqToBox (p c : V3) : ℚ :=
  let lo := sub c ⟨3/5, 3/5, 3/5⟩
  let hi := add c ⟨3/5, 3/5, 3/5⟩
  let q : V3 := ⟨clamp p.x lo.x hi.x, clamp p.y lo.y hi.y, clamp p.z lo.z hi.z⟩
  dot (sub p q) (sub p q)

/-- Modelled from the spec (§8 invariant 4): squared XZ-plane distance from
a point to the XZ projection of the AABB `center ± (0.6, 0.6, 0.6)`. -/
def distSqXZ (p c : V3) : ℚ :=
  let dx := p.x - clamp p.x (c.x - 3/5) (c.x + 3/5)
  let dz := p.z - clamp p.z (c.z - 3/5) (c.z + 3/5)
  dx * dx + dz * dz

/-- Keyboard state sampled by `glfwGetKey` during one loop iteration. -/
structure Keys where
  w : Bool
  a : Bool
  s : Bool
  d : Bool
  space : Bool
  q : Bool
  e : Bool
  r : Bool
  f : Bool
  z : Bool
  c : Bool
deriving DecidableEq

/-- No key pressed. -/
def noKeys : Keys := ⟨false, false, false, false, false, false,
  false, false, false, false, false⟩

/-- The per-frame inputs of one loop iteration: key states, the measured
`deltaTime`, and the cursor positions delivered to `mouseCallback` by
`glfwPollEvents` at the end of the iteration. -/
structure Input where
  keys : Keys
  dt : ℚ
  mouse : List (ℚ × ℚ)

/-- The camera / player globals (lines 167–184): cursor seed, first-event
gate, yaw and pitch in degrees, camera position and front, vertical
velocity, grounded flag. -/
structure PlayerState where
  cameraPos : V3
  cameraFront : V3
  velocityY : ℚ
  isGrounded : Bool
  yaw : ℚ
  pitch : ℚ
  lastX : ℚ
  lastY : ℚ
  firstMouse : Bool
deriving DecidableEq

/-- Whole per-tick state: the player globals plus the cube rotation
accumulator (line 690). -/
structure GameState where
  player : PlayerState
  cubeRotation : V3
deriving DecidableEq

/-- Camera front as recomputed at the end of `mouseCallback`
(lines 209–217), with cosine and sine passed as functions. -/
def frontFromAngles (cosF sinF : ℚ → ℚ) (yaw pitch : ℚ) : V3 :=
  let yawRad := yaw * piApprox / 180
  let pitchRad := pitch * piApprox / 180
  normalizeVec
    ⟨cosF yawRad * cosF pitchRad, sinF pitchRad, sinF yawRad * cosF pitchRad⟩

/-- Source `mouseCallback` (line 186): on the first event the stored cursor
position is seeded with the event position before the offsets are taken
(so both offsets are zero); offsets are scaled by sensitivity `0.1`,
pitch is clamped to `[-89, 89]`, and the front vector is recomputed. -/
def mouseCallback (cosF sinF : ℚ → ℚ) (p : PlayerState) (xpos ypos : ℚ) :
    PlayerState :=
  let lx := if p.firstMouse then xpos else p.lastX
  let ly := if p.firstMouse then ypos else p.lastY
  let xoffset := (xpos - lx) * (1/10)
  let yoffset := (ly - ypos) * (1/10)
  let yaw1 := p.yaw + xoffset
  let pitch1 := clamp (p.pitch + yoffset) (-89) 89
  { p with
    firstMouse := false
    lastX := xpos
    lastY := ypos
    yaw := yaw1
    pitch := pitch1
    cameraFront := frontFromAngles cosF sinF yaw1 pitch1 }

/-- The cube-rotation part of `processInput` (lines 225–230): Q/E turn the
Y accumulator, R/F the X accumulator, Z/C the Z accumulator, each by
`cubeRotationSpeed * deltaTime`. -/
def processInput (keys : Keys) (dt : ℚ) (rot : V3) : V3 :=
  let r1 := if keys.q then { rot with y := rot.y - cubeRotationSpeed * dt } else rot
  let r2 := if keys.e then { r1 with y := r1.y + cubeRotationSpeed * dt } else r1
  let r3 := if keys.r then { r2 with x := r2.x - cubeRotationSpeed * dt } else r2
  let r4 := if keys.f then { r3 with x := r3.x + cubeRotationSpeed * dt } else r3
  let r5 := if keys.z then { r4 with z := r4.z - cubeRotationSpeed * dt } else r4
  if keys.c then { r5 with z := r5.z + cubeRotationSpeed * dt } else r5

/-- Horizontal WASD movement with collision rejection (lines 702–732):
accumulate `±forward` / `±strafeRight`, and if the accumulated vector is
nonzero, normalize it, advance by `cameraSpeed * dt` and accept the
candidate only if it collides with no obstacle. -/
def horizontalMove (pos front : V3) (keys : Keys) (dt : ℚ)
    (obstacles : List V3) : V3 :=
  let forward := normalizeVec ⟨front.x, 0, front.z⟩
  let strafeRight := normalizeVec (cross forward cameraUp)
  let m0 : V3 := ⟨0, 0, 0⟩
  let m1 := if keys.w then add m0 forward else m0
  let m2 := if keys.s then sub m1 forward else m1
  let m3 := if keys.a then sub m2 strafeRight else m2
  let movement := if keys.d then add m3 strafeRight else m3
  if 0 < dot movement movement then
    attemptMove pos (add pos (mul (normalizeVec movement) (cameraSpeed * dt)))
      obstacles
  else pos

/-- The vertical part of the tick on the horizontally-moved position
`pos1` (lines 735–754): jump gate, gravity, vertical integration, ground
clamp (the `else` branch of line 752 sets `isGrounded = false`). -/
def verticalUpdate (p : PlayerState) (keys : Keys) (dt : ℚ) (pos1 : V3) :
    PlayerState :=
  let vy0 := if keys.space && p.isGrounded then jumpSpeed else p.velocityY
  let vy1 := vy0 + gravity * dt
  let y1 := pos1.y + vy1 * dt
  if y1 - playerHeight ≤ groundLevel then
    { p with
      cameraPos := ⟨pos1.x, groundLevel + playerHeight, pos1.z⟩
      velocityY := 0
      isGrounded := true }
  else
    { p with
      cameraPos := ⟨pos1.x, y1, pos1.z⟩
      velocityY := vy1
      isGrounded := false }

/-- One tick of the player pipeline (lines 702–754 and the mouse events
delivered by `glfwPollEvents` at line 813): horizontal move, then the
vertical update, then the mouse events of the tick in order. -/
def playerTick (cosF sinF : ℚ → ℚ) (p : PlayerState) (keys : Keys)
    (dt : ℚ) (mouse : List (ℚ × ℚ)) : PlayerState :=
  let pos1 := horizontalMove p.cameraPos p.cameraFront keys dt cubePositions
  let p1 := verticalUpdate p keys dt pos1
  mouse.foldl (fun st ev => mouseCallback cosF sinF st ev.1 ev.2) p1

/-- One whole loop iteration.  `processInput` (cube rotation) runs first in
the source but shares no data with the player pipeline, so the two state
components are computed side by side. -/
def tick (cosF sinF : ℚ → ℚ) (s : GameState) (inp : Input) : GameState :=
  { player := playerTick cosF sinF s.player inp.keys inp.dt inp.mouse,
    cubeRotation := processInput inp.keys inp.dt s.cubeRotation }

/-- Run the loop over a list of per-tick inputs. -/
def runTicks (cosF sinF : ℚ → ℚ) (s : GameState) (inputs : List Input) :
    GameState :=
  inputs.foldl (tick cosF sinF) s

/-- The initial state of the program (lines 167–184, 690): camera at
`(0, 0.6, 4)`, front `(0, 0, -1)`, yaw `-90`, pitch `0`, cursor seed
`(400, 300)`, first-mouse gate set, not grounded, zero rotation. -/
def initialState : GameState :=
  { player := ⟨⟨0, 3/5, 4⟩, ⟨0, 0, -1⟩, 0, false, -90, 0, 400, 300, true⟩
    cubeRotation := ⟨0, 0, 0⟩ }

/-- The initial state of the end-to-end scenarios of the spec (§8, rows A–D):
as `initialState` but grounded. -/
def stateA : GameState :=
  { player := ⟨⟨0, 3/5, 4⟩, ⟨0, 0, -1⟩, 0, true, -90, 0, 400, 300, true⟩
    cubeRotation := ⟨0, 0, 0⟩ }

/-!  The procedural HDR sky generator (lines 557–636), embedded over `ℝ`
(its values involve square roots of non-squares).  Texels are `(r, g, b)`
triples; the claim is per-texel, so the face loops are embedded as a
function of `face`, `x`, `y`.  The `switch` of lines 574–581 is an
if-chain; values of `face ≥ 6` never occur (the loop runs `face < 6`). -/

/-- Face resolution `skySize = 256` (line 557). -/
def skySize : ℕ := 256

noncomputable section

/-- The normalised sun direction (lines 561–563): `(0.4, 0.6, -0.7)`
divided by its length. -/
def sunDir : ℝ × ℝ × ℝ :=
  let len := Real.sqrt (2/5 * (2/5) + 3/5 * (3/5) + -(7/10) * -(7/10))
  (2/5 / len, 3/5 / len, -(7/10) / len)

/-- The face-to-direction table (lines 570–581): `u, v = (pixel + 0.5) /
N * 2 - 1`, then the per-face raw direction. -/
def faceDir (face x y : ℕ) : ℝ × ℝ × ℝ :=
  let u : ℝ := ((x : ℝ) + 1/2) / (skySize : ℝ) * 2 - 1
  let v : ℝ := ((y : ℝ) + 1/2) / (skySize : ℝ) * 2 - 1
  if face = 0 then (1, -v, -u)
  else if face = 1 then (-1, -v, u)
  else if face = 2 then (u, 1, v)
  else if face = 3 then (u, -1, -v)
  else if face = 4 then (u, -v, 1)
  else (-u, -v, -1)

/-- The normalised per-pixel direction (lines 584–585). -/
def skyDir (face x y : ℕ) : ℝ × ℝ × ℝ :=
  let d := faceDir face x y
  let len := Real.sqrt (d.1 * d.1 + d.2.1 * d.2.1 + d.2.2 * d.2.2)
  (d.1 / len, d.2.1 / len, d.2.2 / len)

/-- The radiance computation of lines 588–625 on a normalised direction
`d` and sun direction `s`: elevation gradient (`pow(elevation, 0.5)` is
`Real.sqrt` on the positive branch), then, when `sunDot > 0`, the sun disc
`(30, 28, 20) * max(0, sunDot)^256` and glow `(1.5, 1.2, 0.6) *
max(0, sunDot)^8`. -/
def skyRadiance (d s : ℝ × ℝ × ℝ) : ℝ × ℝ × ℝ :=
  let elevation := d.2.1
  let base : ℝ × ℝ × ℝ :=
    if 0 < elevation then
      let t := Real.sqrt elevation
      (9/5 * (1 - t) + 1/5 * t, 7/5 * (1 - t) + 2/5 * t,
       9/10 * (1 - t) + 6/5 * t)
    else
      let t := min 1 (-elevation * 2)
      (1 * (1 - t) + 3/20 * t, 4/5 * (1 - t) + 3/25 * t,
       3/5 * (1 - t) + 1/10 * t)
  let sunDot := d.1 * s.1 + d.2.1 * s.2.1 + d.2.2 * s.2.2
  if 0 < sunDot then
    let sunDisc := max 0 sunDot ^ (256 : ℕ)
    let sunGlow := max 0 sunDot ^ (8 : ℕ)
    (base.1 + sunDisc * 30 + sunGlow * (3/2),
     base.2.1 + sunDisc * 28 + sunGlow * (6/5),
     base.2.2 + sunDisc * 20 + sunGlow * (3/5))
  else base

/-- The stored texel of face `face`, pixel `(x, y)` (lines 627–630 store
exactly the `(r, g, b)` just computed). -/
def skyTexel (face x y : ℕ) : ℝ × ℝ × ℝ :=
  skyRadiance (skyDir face x y) sunDir

/-- Modelled from the spec (§4.2): the reference radiance `L(d)` with the
literal sun-disc colour of the spec, `(1.0, 0.933, 0.667)` and glow colour
`(1.0, 0.8, 0.4)`. -/
def specSkyRadiance (d s : ℝ × ℝ × ℝ) : ℝ × ℝ × ℝ :=
  let base : ℝ × ℝ × ℝ :=
    if 0 < d.2.1 then
      let t := Real.sqrt d.2.1
      (9/5 * (1 - t) + 1/5 * t, 7/5 * (1 - t) + 2/5 * t,
       9/10 * (1 - t) + 6/5 * t)
    else
      let t := min 1 (-d.2.1 * 2)
      (1 * (1 - t) + 3/20 * t, 4/5 * (1 - t) + 3/25 * t,
       3/5 * (1 - t) + 1/10 * t)
  let sunDot := d.1 * s.1 + d.2.1 * s.2.1 + d.2.2 * s.2.2
  if 0 < sunDot then
    let disc := 30 * max 0 sunDot ^ (256 : ℕ)
    let glow := 3/2 * max 0 sunDot ^ (8 : ℕ)
    (base.1 + disc * 1 + glow * 1,
     base.2.1 + disc * (933/1000) + glow * (4/5),
     base.2.2 + disc * (667/1000) + glow * (2/5))
  else base

/-- Modelled from the spec (§4.2), with the sun-disc colour corrected to
the exact `(1, 14/15, 2/3)` (which the `(1.0, 0.933, 0.667)` of the spec rounds). -/
def specSkyRadianceExact (d s : ℝ × ℝ × ℝ) : ℝ × ℝ × ℝ :=
  let base : ℝ × ℝ × ℝ :=
    if 0 < d.2.1 then
      let t := Real.sqrt d.2.1
      (9/5 * (1 - t) + 1/5 * t, 7/5 * (1 - t) + 2/5 * t,
       9/10 * (1 - t) + 6/5 * t)
    else
      let t := min 1 (-d.2.1 * 2)
      (1 * (1 - t) + 3/20 * t, 4/5 * (1 - t) + 3/25 * t,
       3/5 * (1 - t) + 1/10 * t)
  let sunDot := d.1 * s.1 + d.2.1 * s.2.1 + d.2.2 * s.2.2
  if 0 < sunDot then
    let disc := 30 * max 0 sunDot ^ (256 : ℕ)
    let glow := 3/2 * max 0 sunDot ^ (8 : ℕ)
    (base.1 + disc * 1 + glow * 1,
     base.2.1 + disc * (14/15) + glow * (4/5),
     base.2.2 + disc * (2/3) + glow * (2/5))
  else base

end

/-! ### Helper lemmas and concrete instances -/

/-- Identity function on `ℚ`, used as a concrete trigonometric oracle in
witness instances (the runs below deliver no mouse events, so the oracle is
never consulted). -/
def idQ : ℚ → ℚ := fun q => q

/-- Only W held. -/
def wOnly : Keys := { noKeys with w := true }

/-- W and SPACE held. -/
def wSpace : Keys := { noKeys with w := true, space := true }

theorem clamp_lo {v lo hi : ℚ} (h : v < lo) : clamp v lo hi = lo := by
  simp [clamp, h]

theorem clamp_hi {v lo hi : ℚ} (h1 : ¬v < lo) (h2 : hi < v) :
    clamp v lo hi = hi := by
  simp [clamp, h1, h2]

theorem clamp_mid {v lo hi : ℚ} (h1 : ¬v < lo) (h2 : ¬hi < v) :
    clamp v lo hi = v := by
  simp [clamp, h1, h2]

theorem sphereAabbCollision_eq_false_iff (center : V3) (radius : ℚ)
    (lo hi : V3) :
    sphereAabbCollision center radius lo hi = false ↔
      radius * radius ≤
        dot (sub center ⟨clamp center.x lo.x hi.x, clamp center.y lo.y hi.y,
          clamp center.z lo.z hi.z⟩)
          (sub center ⟨clamp center.x lo.x hi.x, clamp center.y lo.y hi.y,
            clamp center.z lo.z hi.z⟩) := by
  simp [sphereAabbCollision, not_lt]

theorem collidesAny_eq_false_iff (nextPos : V3) (obstacles : List V3) :
    collidesAny nextPos obstacles = false ↔
      ∀ c ∈ obstacles, cameraRadius * cameraRadius ≤ distSqToBox nextPos c := by
  simp only [collidesAny, List.any_eq_false, Bool.not_eq_true,
    sphereAabbCollision_eq_false_iff, distSqToBox, sub, add]

/-! ### C5 -/

/-- C5: for every fov in `(0, π)`, aspect > 0 and far > near > 0, the
matrix returned by `perspective` has `-1` at array index 11 and `0` at the
other indices 3, 7, 15 of its bottom row (the set the claim calls the last
column under its `m[i]` indexing). -/
theorem C5_perspective_last_column (tanF : ℚ → ℚ)
    (fovRadians aspect nearZ farZ : ℚ) (_h1 : 0 < fovRadians)
    (_h2 : fovRadians < piApprox) (_h3 : 0 < aspect) (_h4 : 0 < nearZ)
    (_h5 : nearZ < farZ) :
    perspective tanF fovRadians aspect nearZ farZ 11 = -1 ∧
    perspective tanF fovRadians aspect nearZ farZ 3 = 0 ∧
    perspective tanF fovRadians aspect nearZ farZ 7 = 0 ∧
    perspective tanF fovRadians aspect nearZ farZ 15 = 0 := by
  refine ⟨?_, ?_, ?_, ?_⟩ <;> norm_num [perspective]

/-- Witness for C5 at `fov = 1`, `aspect = 1`, `near = 0.1`, `far = 140`. -/
theorem C5_perspective_last_column_witness :
    perspective idQ 1 1 (1/10) 140 11 = -1 ∧
    perspective idQ 1 1 (1/10) 140 3 = 0 ∧
    perspective idQ 1 1 (1/10) 140 7 = 0 ∧
    perspective idQ 1 1 (1/10) 140 15 = 0 :=
  C5_perspective_last_column idQ 1 1 (1/10) 140 (by norm_num)
    (by norm_num [piApprox]) (by norm_num) (by norm_num) (by norm_num)

/-! ### C1 -/

/-- C1 fails on the code: at cube `i = 1` (center `(2, 0, -3)`) with the
Y rotation at an angle whose cosine and sine are `(3/5, 4/5)` (a genuine
point of the unit circle) and identity X and Z rotations, the computed
model matrix differs from the `T · Ry · Rx · Rz` asserted by the spec
(already at array index 12: `-6/5` against `2`). -/
theorem C1_counterexample :
    cubeModel 1 (3/5) (4/5) 1 0 1 0 ≠ specCubeModel 1 (3/5) (4/5) 1 0 1 0 := by
  intro h
  have h12 := congrFun h 12
  have hp : cubePos 1 = ⟨2, 0, -3⟩ := rfl
  norm_num [cubeModel, specCubeModel, multiply, matMulCM, translateMat,
    rotateXcs, rotateYcs, rotateZcs, identity, hp] at h12

/-- C1 amended: because `multiply` composes column-major matrices in
reverse, the model matrix actually uploaded for cube `i` is the column-major
product `Rz(rz) · Rx(rx) · Ry(ry + 0.6 i) · T(pos_i)`: the vertex is first
translated to `pos_i`, then rotated about Y, X and Z about the world
origin. -/
theorem C1_cube_model_reversed (i : Fin 10) (cy sy cx sx cz sz : ℚ) :
    cubeModel i cy sy cx sx cz sz =
      matMulCM (matMulCM (matMulCM (rotateZcs cz sz) (rotateXcs cx sx))
        (rotateYcs cy sy)) (translateMat (cubePos i)) := by
  simp only [cubeModel, multiply_eq_matMulCM_swap]

/-! ### C2 -/

/-- C2: the horizontal move is accepted — the result of the collision gate
is the candidate — exactly when the AABB of every obstacle (center ± 0.6) keeps
squared distance at least `r² = 0.35²` from the candidate (touching, i.e.
equality, is not a collision); on any strict overlap the result is the old
position, unchanged. -/
theorem C2_collision_gate (pos nextPos : V3) (obstacles : List V3) :
    attemptMove pos nextPos obstacles =
      (if ∀ c ∈ obstacles, cameraRadius * cameraRadius ≤ distSqToBox nextPos c
        then nextPos else pos) ∧
    (collidesAny nextPos obstacles = false ↔
      ∀ c ∈ obstacles, cameraRadius * cameraRadius ≤ distSqToBox nextPos c) := by
  refine ⟨?_, collidesAny_eq_false_iff nextPos obstacles⟩
  by_cases h : ∀ c ∈ obstacles, cameraRadius * cameraRadius ≤ distSqToBox nextPos c
  · rw [if_pos h, attemptMove, (collidesAny_eq_false_iff nextPos obstacles).mpr h]
    simp
  · rw [if_neg h, attemptMove]
    have ht : collidesAny nextPos obstacles = true := by
      rcases Bool.eq_false_or_eq_true (collidesAny nextPos obstacles) with ht | hf
      · exact ht
      · exact absurd ((collidesAny_eq_false_iff nextPos obstacles).mp hf) h
    rw [ht]
    simp

/-- Witness for C2: the gate applied at the start position and the first
candidate of scenario B. -/
theorem C2_collision_gate_witness :
    attemptMove ⟨0, 3/5, 4⟩ ⟨0, 3/5, 79/20⟩ cubePositions =
      (if ∀ c ∈ cubePositions,
          cameraRadius * cameraRadius ≤ distSqToBox ⟨0, 3/5, 79/20⟩ c
        then (⟨0, 3/5, 79/20⟩ : V3) else ⟨0, 3/5, 4⟩) ∧
    (collidesAny ⟨0, 3/5, 79/20⟩ cubePositions = false ↔
      ∀ c ∈ cubePositions,
        cameraRadius * cameraRadius ≤ distSqToBox ⟨0, 3/5, 79/20⟩ c) :=
  C2_collision_gate ⟨0, 3/5, 4⟩ ⟨0, 3/5, 79/20⟩ cubePositions

/-! ### C3, amended part -/

/-- C3 amended: whenever the horizontal collision gate accepts a candidate
position, the candidate keeps full three-dimensional squared distance at
least `r²` from every obstacle AABB.  (The XZ-projected version stated by
the spec is
refuted below: an airborne player can pass directly above an obstacle.) -/
theorem C3_accepted_implies_clearance (nextPos : V3) (obstacles : List V3)
    (h : collidesAny nextPos obstacles = false) :
    ∀ c ∈ obstacles, cameraRadius * cameraRadius ≤ distSqToBox nextPos c :=
  (collidesAny_eq_false_iff nextPos obstacles).mp h


/-- Witness for the amended C3 theorem: the accepted start position of
scenario A keeps 3D clearance from the cube at the origin. -/
theorem C3_accepted_implies_clearance_witness :
    cameraRadius * cameraRadius ≤ distSqToBox ⟨0, 3/5, 4⟩ ⟨0, 0, 0⟩ :=
  C3_accepted_implies_clearance ⟨0, 3/5, 4⟩ cubePositions
    (by norm_num [collidesAny, cubePositions, sphereAabbCollision, clamp,
      sub, add, dot, cameraRadius])
    ⟨0, 0, 0⟩ (by simp [cubePositions])

/-! ### C7 -/

/-- C7: a mouse event arriving while the first-event gate is set leaves yaw
and pitch exactly unchanged for every event position — it only seeds the
stored cursor position and clears the gate; the camera front is recomputed
from the unchanged yaw and pitch (so it is the same value any event ending
at these angles produces). -/
theorem C7_first_mouse_event (cosF sinF : ℚ → ℚ) (p : PlayerState)
    (xpos ypos : ℚ) (hfm : p.firstMouse = true) (hlo : -89 ≤ p.pitch)
    (hhi : p.pitch ≤ 89) :
    (mouseCallback cosF sinF p xpos ypos).yaw = p.yaw ∧
    (mouseCallback cosF sinF p xpos ypos).pitch = p.pitch ∧
    (mouseCallback cosF sinF p xpos ypos).lastX = xpos ∧
    (mouseCallback cosF sinF p xpos ypos).lastY = ypos ∧
    (mouseCallback cosF sinF p xpos ypos).firstMouse = false ∧
    (mouseCallback cosF sinF p xpos ypos).cameraFront =
      frontFromAngles cosF sinF p.yaw p.pitch := by
  have hcl : clamp p.pitch (-89) 89 = p.pitch :=
    clamp_mid (not_lt.mpr hlo) (not_lt.mpr hhi)
  simp [mouseCallback, hfm, hcl]

/-- Witness for C7 at the startup camera state of the program and event
position `(500, 200)`. -/
theorem C7_first_mouse_event_witness :
    (mouseCallback idQ idQ initialState.player 500 200).yaw =
      initialState.player.yaw ∧
    (mouseCallback idQ idQ initialState.player 500 200).pitch =
      initialState.player.pitch ∧
    (mouseCallback idQ idQ initialState.player 500 200).lastX = 500 ∧
    (mouseCallback idQ idQ initialState.player 500 200).lastY = 200 ∧
    (mouseCallback idQ idQ initialState.player 500 200).firstMouse = false ∧
    (mouseCallback idQ idQ initialState.player 500 200).cameraFront =
      frontFromAngles idQ idQ initialState.player.yaw
        initialState.player.pitch :=
  C7_first_mouse_event idQ idQ initialState.player 500 200 rfl
    (by norm_num [initialState]) (by norm_num [initialState])

/-! ### C8 -/

theorem mouseCallback_motion_fields (cosF sinF : ℚ → ℚ) (p : PlayerState)
    (x y : ℚ) :
    (mouseCallback cosF sinF p x y).cameraPos = p.cameraPos ∧
    (mouseCallback cosF sinF p x y).velocityY = p.velocityY ∧
    (mouseCallback cosF sinF p x y).isGrounded = p.isGrounded := by
  simp [mouseCallback]

theorem mouseFold_motion_fields (cosF sinF : ℚ → ℚ) (l : List (ℚ × ℚ))
    (p : PlayerState) :
    (l.foldl (fun st ev => mouseCallback cosF sinF st ev.1 ev.2) p).cameraPos
        = p.cameraPos ∧
    (l.foldl (fun st ev => mouseCallback cosF sinF st ev.1 ev.2) p).velocityY
        = p.velocityY ∧
    (l.foldl (fun st ev => mouseCallback cosF sinF st ev.1 ev.2) p).isGrounded
        = p.isGrounded := by
  induction l generalizing p with
  | nil => simp
  | cons ev rest ih =>
    simp only [List.foldl_cons]
    obtain ⟨h1, h2, h3⟩ := ih (mouseCallback cosF sinF p ev.1 ev.2)
    obtain ⟨g1, g2, g3⟩ := mouseCallback_motion_fields cosF sinF p ev.1 ev.2
    exact ⟨h1.trans g1, h2.trans g2, h3.trans g3⟩

/-- In the state produced by the vertical update, `isGrounded = true`
forces eye height `groundLevel + playerHeight` and zero vertical
velocity. -/
theorem verticalUpdate_grounded (p : PlayerState) (keys : Keys) (dt : ℚ)
    (pos1 : V3) (h : (verticalUpdate p keys dt pos1).isGrounded = true) :
    (verticalUpdate p keys dt pos1).cameraPos.y = groundLevel + playerHeight ∧
    (verticalUpdate p keys dt pos1).velocityY = 0 := by
  simp only [verticalUpdate] at h ⊢
  by_cases hc : pos1.y +
      ((if (keys.space && p.isGrounded) = true then jumpSpeed
        else p.velocityY) + gravity * dt) * dt - playerHeight ≤ groundLevel
  · simp only [if_pos hc]
    exact ⟨trivial, trivial⟩
  · simp only [if_neg hc] at h
    simp at h

/-- C8: after the ground-clamp step of a tick — i.e. in the resulting
state of the tick — `isGrounded = true` forces `cameraPos.y = groundY +
playerHeight = 0.6` and `velocityY = 0`, for every prior state and every
input. -/
theorem C8_grounded_invariant (cosF sinF : ℚ → ℚ) (s : GameState)
    (inp : Input) (h : (tick cosF sinF s inp).player.isGrounded = true) :
    (tick cosF sinF s inp).player.cameraPos.y = groundLevel + playerHeight ∧
    (tick cosF sinF s inp).player.velocityY = 0 := by
  have hfold := mouseFold_motion_fields cosF sinF inp.mouse
    (verticalUpdate s.player inp.keys inp.dt
      (horizontalMove s.player.cameraPos s.player.cameraFront inp.keys inp.dt
        cubePositions))
  simp only [tick, playerTick] at h ⊢
  rw [hfold.2.2] at h
  rw [hfold.1, hfold.2.1]
  obtain ⟨h1, h2⟩ := verticalUpdate_grounded _ _ _ _ h
  exact ⟨by rw [h1], h2⟩


/-- Witness for C8: one tick with no keys and `dt = 0` from the start
state of the program ends grounded. -/
theorem C8_grounded_invariant_witness :
    (tick idQ idQ initialState ⟨noKeys, 0, []⟩).player.cameraPos.y =
      groundLevel + playerHeight ∧
    (tick idQ idQ initialState ⟨noKeys, 0, []⟩).player.velocityY = 0 :=
  C8_grounded_invariant idQ idQ initialState ⟨noKeys, 0, []⟩
    (by norm_num [tick, playerTick, verticalUpdate, horizontalMove, noKeys,
      normalizeVec, sqrtQ, dot, cross, add, sub, mul, initialState, cameraUp,
      gravity, jumpSpeed, playerHeight, groundLevel])

/-! ### C4 -/

theorem mul_vec_zero (v : V3) : mul v 0 = ⟨0, 0, 0⟩ := by
  simp [mul]

theorem add_vec_zero (p : V3) : add p ⟨0, 0, 0⟩ = p := by
  cases p
  simp [add]

/-- With `dt = 0` the horizontal move leaves the position unchanged: the
candidate coincides with the current position, and both the accepted and
the rejected branch return it. -/
theorem horizontalMove_dt_zero (pos front : V3) (keys : Keys)
    (obstacles : List V3) :
    horizontalMove pos front keys 0 obstacles = pos := by
  simp [horizontalMove, mul_vec_zero, add_vec_zero, attemptMove, ite_self]

/-- With `dt = 0` the rotation keys leave the accumulator unchanged. -/
theorem processInput_dt_zero (keys : Keys) (rot : V3) :
    processInput keys 0 rot = rot := by
  cases rot
  simp [processInput]

/-- C4 amended: the measured `deltaTime` is used as-is, with no clamping.
A tick whose `dt` is exactly `0` leaves position, vertical velocity,
grounded flag and cube rotation unchanged (given the state invariant that
every tick re-establishes: grounded at eye height `0.6` with zero vertical
velocity, or airborne strictly above it); a tick with `dt < 0` integrates
the raw negative `dt` and is *not* equivalent to a `dt = 0` tick (see the
counterexample). -/
theorem C4_dt_zero_preserves (cosF sinF : ℚ → ℚ) (s : GameState)
    (inp : Input) (hdt : inp.dt = 0)
    (hinv : (s.player.isGrounded = true ∧ s.player.cameraPos.y = 3/5 ∧
             s.player.velocityY = 0) ∨
            (s.player.isGrounded = false ∧ 3/5 < s.player.cameraPos.y)) :
    (tick cosF sinF s inp).player.cameraPos = s.player.cameraPos ∧
    (tick cosF sinF s inp).player.velocityY = s.player.velocityY ∧
    (tick cosF sinF s inp).player.isGrounded = s.player.isGrounded ∧
    (tick cosF sinF s inp).cubeRotation = s.cubeRotation := by
  obtain ⟨keys, dt, mouse⟩ := inp
  simp only at hdt
  subst hdt
  obtain ⟨⟨⟨px, py, pz⟩, fr, vel, gr, yw, pt, lx, ly, fm⟩, rot⟩ := s
  simp only at hinv
  have hfold := mouseFold_motion_fields cosF sinF mouse
    (verticalUpdate ⟨⟨px, py, pz⟩, fr, vel, gr, yw, pt, lx, ly, fm⟩ keys 0
      (horizontalMove ⟨px, py, pz⟩ fr keys 0 cubePositions))
  simp only [tick, playerTick]
  rw [hfold.1, hfold.2.1, hfold.2.2, processInput_dt_zero,
    horizontalMove_dt_zero]
  rcases hinv with ⟨hg, hy, hv⟩ | ⟨hg, hy⟩
  · subst hg
    subst hy
    subst hv
    norm_num [verticalUpdate, playerHeight, groundLevel]
  · subst hg
    have hc : ¬(py + ((if (keys.space && false) = true then jumpSpeed
        else vel) + gravity * 0) * 0 - playerHeight ≤ groundLevel) := by
      norm_num [playerHeight, groundLevel]
      linarith
    simp only [verticalUpdate, if_neg hc]
    norm_num

/-- Witness for the amended C4 theorem at the scenario-A state with W held
and `dt = 0`. -/
theorem C4_dt_zero_preserves_witness :
    (tick idQ idQ stateA ⟨wOnly, 0, []⟩).player.cameraPos =
      stateA.player.cameraPos ∧
    (tick idQ idQ stateA ⟨wOnly, 0, []⟩).player.velocityY =
      stateA.player.velocityY ∧
    (tick idQ idQ stateA ⟨wOnly, 0, []⟩).player.isGrounded =
      stateA.player.isGrounded ∧
    (tick idQ idQ stateA ⟨wOnly, 0, []⟩).cubeRotation = stateA.cubeRotation :=
  C4_dt_zero_preserves idQ idQ stateA ⟨wOnly, 0, []⟩ rfl
    (Or.inl ⟨rfl, rfl, rfl⟩)

/-- C4 fails on the code as claimed: `dt` is never clamped.  From the
start state of the program with W held, a tick with `dt = -1` moves the camera
to `z = 7` while a `dt = 0` tick leaves it at `z = 4`: a `dt ≤ 0` tick is
not treated as `dt = 0`, and the raw negative `dt` enters the
integration. -/
theorem C4_counterexample :
    (tick idQ idQ initialState ⟨wOnly, -1, []⟩).player.cameraPos ≠
      (tick idQ idQ initialState ⟨wOnly, 0, []⟩).player.cameraPos := by
  norm_num [tick, playerTick, verticalUpdate, horizontalMove, attemptMove,
    collidesAny, sphereAabbCollision, clamp, normalizeVec, sqrtQ, dot, cross,
    add, sub, mul, initialState, wOnly, noKeys, cubePositions, cameraUp,
    cameraSpeed, cameraRadius, gravity, jumpSpeed, playerHeight, groundLevel,
    List.any, Nat.sqrt]

/-! ### C6 and the C3 counterexample run -/

/-- On the straight corridor toward the origin cube (`x = 0`, eye height
`0.6`, `0.95 ≤ z ≤ 4`) no obstacle collides: the origin cube is at least
touching distance away and every other AABB is farther than `r` on some
axis. -/
theorem collides_corridor (w : ℚ) (h1 : 19/20 ≤ w) (h2 : w ≤ 4) :
    collidesAny ⟨0, 3/5, w⟩ cubePositions = false := by
  simp only [collidesAny, cubePositions, List.any_cons, List.any_nil,
    Bool.or_false, Bool.or_eq_false_iff]
  refine ⟨?_, ?_, ?_, ?_, ?_, ?_, ?_, ?_, ?_, ?_⟩ <;>
    · rw [sphereAabbCollision_eq_false_iff]
      simp only [sub, add, dot, clamp, cameraRadius]
      norm_num
      split_ifs <;> nlinarith [h1, h2]

/-- The state on the walking corridor: camera at `(0, 0.6, z)`, grounded,
front `(0, 0, -1)`, everything else at the scenario-A values. -/
def walkState (z : ℚ) : GameState :=
  { player := ⟨⟨0, 3/5, z⟩, ⟨0, 0, -1⟩, 0, true, -90, 0, 400, 300, true⟩
    cubeRotation := ⟨0, 0, 0⟩ }

/-- One W-held tick at `dt = 1/60` on the corridor advances `z` by exactly
`speed * dt = 0.05` and re-establishes the grounded state. -/
theorem walk_step (cosF sinF : ℚ → ℚ) (z : ℚ) (h1 : 1 ≤ z) (h2 : z ≤ 4) :
    tick cosF sinF (walkState z) ⟨wOnly, 1/60, []⟩ = walkState (z - 1/20) := by
  have hc : collidesAny ⟨0, 3/5, z + -(1/20)⟩ cubePositions = false := by
    have h := collides_corridor (z - 1/20) (by linarith) (by linarith)
    have e : z - 1/20 = z + -(1/20) := by ring
    rwa [e] at h
  norm_num [tick, playerTick, verticalUpdate, horizontalMove, attemptMove, hc,
    wOnly, noKeys, walkState, normalizeVec, sqrtQ, dot, cross, add, sub, mul,
    cameraUp, cameraSpeed, gravity, jumpSpeed, playerHeight, groundLevel,
    processInput, cubeRotationSpeed, Nat.sqrt, GameState.mk.injEq,
    PlayerState.mk.injEq, V3.mk.injEq]
  ring

/-- Running `k` W-held ticks walks the corridor from `z` down to `z - k/20`, as long
as the whole path stays in the accepted region `z ≥ 0.95`. -/
theorem walk_run (cosF sinF : ℚ → ℚ) :
    ∀ (k : ℕ) (z : ℚ), 19/20 + (k : ℚ) / 20 ≤ z → z ≤ 4 →
      runTicks cosF sinF (walkState z) (List.replicate k ⟨wOnly, 1/60, []⟩) =
        walkState (z - k / 20) := by
  intro k
  induction k with
  | zero =>
    intro z h1 h2
    norm_num [runTicks, walkState]
  | succ n ih =>
    intro z h1 h2
    have hcast : ((n + 1 : ℕ) : ℚ) = (n : ℚ) + 1 := by push_cast; ring
    rw [hcast] at h1
    have hn : (0:ℚ) ≤ (n : ℚ) := Nat.cast_nonneg n
    rw [List.replicate_succ]
    simp only [runTicks, List.foldl_cons]
    rw [show tick cosF sinF (walkState z) ⟨wOnly, 1/60, []⟩ =
        walkState (z - 1/20) from
      walk_step cosF sinF z (by linarith) h2]
    have hih := ih (z - 1/20) (by linarith) (by linarith)
    simp only [runTicks] at hih
    rw [hih]
    congr 1
    push_cast
    ring

/-- C6: from position `(0, 0.6, 4)`, grounded with zero vertical velocity
and front `(0, 0, -1)` (yaw `-90°`, pitch `0°`), 60 ticks of `dt = 1/60`
with only W held end at `(0, 0.6, 1)` — `z = 4 - 3.0 * 1.0` exactly in this
exact-arithmetic model — still grounded. -/
theorem C6_sixty_ticks_W :
    (runTicks idQ idQ stateA
        (List.replicate 60 ⟨wOnly, 1/60, []⟩)).player.cameraPos =
      ⟨0, 3/5, 1⟩ ∧
    (runTicks idQ idQ stateA
        (List.replicate 60 ⟨wOnly, 1/60, []⟩)).player.isGrounded = true := by
  have h := walk_run idQ idQ 60 4 (by norm_num) (by norm_num)
  have hA : stateA = walkState 4 := rfl
  rw [hA, h]
  norm_num [walkState]

/-- The input sequence refuting C3: walk to the origin cube for 60 ticks,
jump (W + SPACE), then keep W held for 4 airborne ticks. -/
def c3Inputs : List Input :=
  List.replicate 60 ⟨wOnly, 1/60, []⟩ ++
    (⟨wSpace, 1/60, []⟩ :: List.replicate 4 ⟨wOnly, 1/60, []⟩)

/-- C3 fails on the code: the XZ-projected clearance invariant is violated
at a reachable, accepted position.  After the 65-tick input sequence
`c3Inputs` (walk, jump, keep walking) the camera stands at
`(0, 71/60, 0.8)`: the final horizontal candidate `(0, 97/90, 0.8)` is
accepted by the collision gate (airborne, it clears every AABB in 3D), yet
the XZ distance from the reached position to the XZ footprint of the
origin cube is `0.2 < playerRadius - ε = 0.35 - 10⁻⁴`. -/
theorem C3_counterexample :
    (runTicks idQ idQ stateA c3Inputs).player.cameraPos = ⟨0, 71/60, 4/5⟩ ∧
    collidesAny ⟨0, 97/90, 4/5⟩ cubePositions = false ∧
    (⟨0, 0, 0⟩ : V3) ∈ cubePositions ∧
    distSqXZ ⟨0, 71/60, 4/5⟩ ⟨0, 0, 0⟩ <
      (cameraRadius - 1/10000) * (cameraRadius - 1/10000) := by
  have t1 : tick idQ idQ (walkState 1) ⟨wSpace, 1/60, []⟩ =
      ⟨⟨⟨0, 131/180, 19/20⟩, ⟨0, 0, -1⟩, 23/3, false, -90, 0, 400, 300, true⟩,
        ⟨0, 0, 0⟩⟩ := by
    norm_num [tick, playerTick, verticalUpdate, horizontalMove, attemptMove,
      collidesAny, sphereAabbCollision, clamp, normalizeVec, sqrtQ, dot, cross,
      add, sub, mul, walkState, wSpace, noKeys, cubePositions, cameraUp,
      cameraSpeed, cameraRadius, gravity, jumpSpeed, playerHeight, groundLevel,
      processInput, cubeRotationSpeed, List.any, Nat.sqrt]
  have t2 : tick idQ idQ
      ⟨⟨⟨0, 131/180, 19/20⟩, ⟨0, 0, -1⟩, 23/3, false, -90, 0, 400, 300, true⟩,
        ⟨0, 0, 0⟩⟩ ⟨wOnly, 1/60, []⟩ =
      ⟨⟨⟨0, 17/20, 19/20⟩, ⟨0, 0, -1⟩, 22/3, false, -90, 0, 400, 300, true⟩,
        ⟨0, 0, 0⟩⟩ := by
    norm_num [tick, playerTick, verticalUpdate, horizontalMove, attemptMove,
      collidesAny, sphereAabbCollision, clamp, normalizeVec, sqrtQ, dot, cross,
      add, sub, mul, wOnly, noKeys, cubePositions, cameraUp,
      cameraSpeed, cameraRadius, gravity, jumpSpeed, playerHeight, groundLevel,
      processInput, cubeRotationSpeed, List.any, Nat.sqrt]
  have t3 : tick idQ idQ
      ⟨⟨⟨0, 17/20, 19/20⟩, ⟨0, 0, -1⟩, 22/3, false, -90, 0, 400, 300, true⟩,
        ⟨0, 0, 0⟩⟩ ⟨wOnly, 1/60, []⟩ =
      ⟨⟨⟨0, 29/30, 9/10⟩, ⟨0, 0, -1⟩, 7, false, -90, 0, 400, 300, true⟩,
        ⟨0, 0, 0⟩⟩ := by
    norm_num [tick, playerTick, verticalUpdate, horizontalMove, attemptMove,
      collidesAny, sphereAabbCollision, clamp, normalizeVec, sqrtQ, dot, cross,
      add, sub, mul, wOnly, noKeys, cubePositions, cameraUp,
      cameraSpeed, cameraRadius, gravity, jumpSpeed, playerHeight, groundLevel,
      processInput, cubeRotationSpeed, List.any, Nat.sqrt]
  have t4 : tick idQ idQ
      ⟨⟨⟨0, 29/30, 9/10⟩, ⟨0, 0, -1⟩, 7, false, -90, 0, 400, 300, true⟩,
        ⟨0, 0, 0⟩⟩ ⟨wOnly, 1/60, []⟩ =
      ⟨⟨⟨0, 97/90, 17/20⟩, ⟨0, 0, -1⟩, 20/3, false, -90, 0, 400, 300, true⟩,
        ⟨0, 0, 0⟩⟩ := by
    norm_num [tick, playerTick, verticalUpdate, horizontalMove, attemptMove,
      collidesAny, sphereAabbCollision, clamp, normalizeVec, sqrtQ, dot, cross,
      add, sub, mul, wOnly, noKeys, cubePositions, cameraUp,
      cameraSpeed, cameraRadius, gravity, jumpSpeed, playerHeight, groundLevel,
      processInput, cubeRotationSpeed, List.any, Nat.sqrt]
  have t5 : tick idQ idQ
      ⟨⟨⟨0, 97/90, 17/20⟩, ⟨0, 0, -1⟩, 20/3, false, -90, 0, 400, 300, true⟩,
        ⟨0, 0, 0⟩⟩ ⟨wOnly, 1/60, []⟩ =
      ⟨⟨⟨0, 71/60, 4/5⟩, ⟨0, 0, -1⟩, 19/3, false, -90, 0, 400, 300, true⟩,
        ⟨0, 0, 0⟩⟩ := by
    norm_num [tick, playerTick, verticalUpdate, horizontalMove, attemptMove,
      collidesAny, sphereAabbCollision, clamp, normalizeVec, sqrtQ, dot, cross,
      add, sub, mul, wOnly, noKeys, cubePositions, cameraUp,
      cameraSpeed, cameraRadius, gravity, jumpSpeed, playerHeight, groundLevel,
      processInput, cubeRotationSpeed, List.any, Nat.sqrt]
  refine ⟨?_, ?_, ?_, ?_⟩
  · have h60 := walk_run idQ idQ 60 4 (by norm_num) (by norm_num)
    have hA : stateA = walkState 4 := rfl
    have hw : walkState (4 - (60 : ℕ) / 20) = walkState 1 := by
      norm_num
    simp only [runTicks] at h60
    simp only [c3Inputs, runTicks, List.foldl_append]
    rw [hA, h60, hw]
    simp only [List.replicate_succ, List.replicate_zero, List.foldl_cons,
      List.foldl_nil]
    rw [t1, t2, t3, t4, t5]
  · norm_num [collidesAny, sphereAabbCollision, clamp, dot, sub, add,
      cubePositions, cameraRadius, List.any]
  · simp [cubePositions]
  · norm_num [distSqXZ, clamp, cameraRadius]

/-! ### C10 -/

/-- Agreement of two per-tick inputs on everything except the
cube-rotation keys Q/E/R/F/Z/C. -/
def inputAgree (i1 i2 : Input) : Prop :=
  i1.keys.w = i2.keys.w ∧ i1.keys.a = i2.keys.a ∧ i1.keys.s = i2.keys.s ∧
  i1.keys.d = i2.keys.d ∧ i1.keys.space = i2.keys.space ∧
  i1.dt = i2.dt ∧ i1.mouse = i2.mouse

theorem playerTick_congr (cosF sinF : ℚ → ℚ) (p : PlayerState)
    {i1 i2 : Input} (h : inputAgree i1 i2) :
    playerTick cosF sinF p i1.keys i1.dt i1.mouse =
      playerTick cosF sinF p i2.keys i2.dt i2.mouse := by
  obtain ⟨hw, ha, hs, hd, hsp, hdt, hm⟩ := h
  simp only [playerTick, horizontalMove, verticalUpdate, hw, ha, hs, hd, hsp,
    hdt, hm]

theorem tick_player_congr (cosF sinF : ℚ → ℚ) {s1 s2 : GameState}
    {i1 i2 : Input} (hp : s1.player = s2.player) (h : inputAgree i1 i2) :
    (tick cosF sinF s1 i1).player = (tick cosF sinF s2 i2).player := by
  simp only [tick]
  rw [hp, playerTick_congr cosF sinF s2.player h]

theorem runTicks_player_agree (cosF sinF : ℚ → ℚ) :
    ∀ {l1 l2 : List Input}, List.Forall₂ inputAgree l1 l2 →
    ∀ (s1 s2 : GameState), s1.player = s2.player → ∀ n : ℕ,
      (runTicks cosF sinF s1 (l1.take n)).player =
      (runTicks cosF sinF s2 (l2.take n)).player := by
  intro l1 l2 h
  induction h with
  | nil =>
    intro s1 s2 hp n
    simpa [runTicks] using hp
  | @cons a b m1 m2 hi _ ih =>
    intro s1 s2 hp n
    cases n with
    | zero => simpa [runTicks] using hp
    | succ m =>
      simp only [List.take_succ_cons, runTicks, List.foldl_cons]
      exact ih _ _ (tick_player_congr cosF sinF hp hi) m

/-- C10: noninterference of the cube-rotation keys with the player.  Two
runs from the start state of the program whose input streams agree pointwise on
mouse events, W/A/S/D/SPACE and frame times — but may differ arbitrarily in
Q/E/R/F/Z/C and hence in the cube-rotation accumulator — have identical
camera position, camera front, vertical velocity, grounded flag, yaw and
pitch after every tick. -/
theorem C10_rotation_noninterference (cosF sinF : ℚ → ℚ)
    (l1 l2 : List Input) (h : List.Forall₂ inputAgree l1 l2) (n : ℕ) :
    (runTicks cosF sinF initialState (l1.take n)).player =
    (runTicks cosF sinF initialState (l2.take n)).player :=
  runTicks_player_agree cosF sinF h initialState initialState rfl n

/-- Witness for C10: one tick with Q held against one tick without. -/
theorem C10_rotation_noninterference_witness :
    (runTicks idQ idQ initialState
        ([⟨{ noKeys with q := true }, 1/60, []⟩].take 1)).player =
    (runTicks idQ idQ initialState ([⟨noKeys, 1/60, []⟩].take 1)).player :=
  C10_rotation_noninterference idQ idQ _ _
    (List.Forall₂.cons ⟨rfl, rfl, rfl, rfl, rfl, rfl, rfl⟩ List.Forall₂.nil) 1

/-! ### C9 -/

theorem skyRadiance_eq_specExact (d s : ℝ × ℝ × ℝ) :
    skyRadiance d s = specSkyRadianceExact d s := by
  simp only [skyRadiance, specSkyRadianceExact]
  split_ifs <;> refine Prod.ext ?_ (Prod.ext ?_ ?_) <;> simp <;> ring

/-- Wherever the sun term is active (`d·S > 0`), the stored radiance
differs from the literal-constant radiance of the spec: the green disc channel
is `28·(d·S)²⁵⁶`, not `30·0.933·(d·S)²⁵⁶ = 27.99·(d·S)²⁵⁶`. -/
theorem skyRadiance_ne_spec (d s : ℝ × ℝ × ℝ)
    (hsd : 0 < d.1 * s.1 + d.2.1 * s.2.1 + d.2.2 * s.2.2) :
    skyRadiance d s ≠ specSkyRadiance d s := by
  intro h
  have h2 := congrArg (fun t => t.2.1) h
  simp only [skyRadiance, specSkyRadiance, if_pos hsd] at h2
  have hp : 0 < max 0 (d.1 * s.1 + d.2.1 * s.2.1 + d.2.2 * s.2.2) ^ (256:ℕ) :=
    pow_pos (lt_max_iff.mpr (Or.inr hsd)) 256
  by_cases hdy : 0 < d.2.1
  · simp only [if_pos hdy] at h2
    nlinarith [hp]
  · simp only [if_neg hdy] at h2
    nlinarith [hp]

/-- C9 fails on the code as stated: at face `+Y`, pixel `(127, 127)` —
where `d·S > 0` — the stored texel is not the radiance of the spec with disc
colour `(1.0, 0.933, 0.667)`: in exact arithmetic the code adds
`(30, 28, 20)·(d·S)²⁵⁶`, i.e. colour `(1, 14/15, 2/3)`, and
`28 ≠ 30 · 0.933`. -/
theorem C9_counterexample :
    skyTexel 2 127 127 ≠ specSkyRadiance (skyDir 2 127 127) sunDir := by
  rw [skyTexel]
  refine skyRadiance_ne_spec _ _ ?_
  have hfd : faceDir 2 127 127 = (-(1/256 : ℝ), 1, -(1/256)) := by
    norm_num [faceDir, skySize]
  have hL : (0:ℝ) < Real.sqrt
      (-(1/256 : ℝ) * -(1/256) + 1 * 1 + -(1/256) * -(1/256)) :=
    Real.sqrt_pos.mpr (by norm_num)
  have hM : (0:ℝ) < Real.sqrt
      ((2/5 : ℝ) * (2/5) + 3/5 * (3/5) + -(7/10) * -(7/10)) :=
    Real.sqrt_pos.mpr (by norm_num)
  simp only [skyDir, sunDir, hfd]
  set L := Real.sqrt (-(1/256 : ℝ) * -(1/256) + 1 * 1 + -(1/256) * -(1/256))
  set M := Real.sqrt ((2/5 : ℝ) * (2/5) + 3/5 * (3/5) + -(7/10) * -(7/10))
  have key : -(1/256 : ℝ)/L * (2/5/M) + 1/L * (3/5/M) +
      -(1/256)/L * (-(7/10)/M) = (3/5 + 3/2560) * (1/L) * (1/M) := by
    ring
  rw [key]
  exact mul_pos (mul_pos (by norm_num) (by positivity)) (by positivity)

/-- C9 amended: for every face and pixel, the stored sky texel equals the
§4.2 reference radiance at the normalised direction of the pixel, with the
sun-disc colour taken as the exact `(1, 14/15, 2/3)` — additively
`(30, 28, 20)` — instead of the rounded `(1.0, 0.933, 0.667)` of the spec;
the elevation gradients, the face-to-direction table, `u, v =
(pixel + 0.5)/N·2 − 1`, and the glow term `1.5·(d·S)⁸·(1.0, 0.8, 0.4)`
are exactly as the spec states. -/
theorem C9_sky_texel (face x y : ℕ) :
    skyTexel face x y = specSkyRadianceExact (skyDir face x y) sunDir := by
  rw [skyTexel]
  exact skyRadiance_eq_specExact (skyDir face x y) sunDir
